import Mathlib

/-!
Verification model of `medusa-plugin-aws-storage`.

The repository has two variants of the same service class:
`src/services/aws-storage.ts` (the current one) and `src/services/s3.ts`
(an earlier variant that additionally contains `getKeyFromUrl`).  Both are
embedded below: namespace `AwsStorage` models `aws-storage.ts`, namespace
`S3File` models the key/URL codec of `s3.ts`.

Modelling conventions (JavaScript semantics made explicit):
* Optional string options/fields whose only use is JS truthiness tests are
  modelled as `String` with `""` playing the role of `undefined`/empty
  (both are falsy in JS, and the code only ever tests truthiness on them).
* AWS-SDK list wrappers (`Aliases.Items`, `Origins.Items`,
  `CacheBehaviors.Items`) are modelled as plain lists, `[]` standing for
  an absent or empty wrapper; the code only tests `?.Items?.length`
  truthiness and runs `find`/`filter`/`includes` on them, for which an
  absent wrapper and an empty list behave identically.
* `CacheBehavior.TargetOriginId` is `Option String` because the code
  builds a synthesized behavior with `TargetOriginId: this.s3Origin_?.Id`,
  which is `undefined` when no origin is resolved.
* `string.replace(pattern, '')` with a plain-string or `^`-anchored
  pattern is modelled by `replaceFirst` / `stripAnchored` below; the
  anchored variant is faithful for origin paths containing no regex
  metacharacters (the documented form, e.g. `/assets`).
* Network sends and `console` output are modelled as an explicit event
  trace (`Event`); which request an S3/CloudFront send answers is
  modelled by a `Backend` oracle, and the distribution fetch by an
  `Except` parameter.
-/

/-- JS `str.indexOf(pat)` on character lists: index of the first
occurrence of `pat` in `s`, `none` when there is none (`some 0` for the
empty pattern, as in JS). -/
def idxOf (pat : List Char) : List Char → Option Nat
  | [] => if pat.isPrefixOf ([] : List Char) then some 0 else none
  | c :: t => if pat.isPrefixOf (c :: t) then some 0 else (idxOf pat t).map (· + 1)

/-- JS `s.replace(pat, rep)` for a plain-string `pat`: replace the first
occurrence only (JS `String.prototype.replace` with a non-global string
pattern). -/
def replaceFirst (s pat rep : String) : String :=
  match idxOf pat.data s.data with
  | none => s
  | some i => String.mk (s.data.take i ++ rep.data ++ s.data.drop (i + pat.data.length))

/-- JS `s.replace(new RegExp('^' + pat), '')` for a metacharacter-free
`pat`: strip `pat` when it is a prefix of `s`, otherwise leave `s`
unchanged.  For `pat = ""` this is also the model of
`s.replace('', '')` (a no-op), matching the `searchValue = ''` branch of
the source. -/
def stripAnchored (s pat : String) : String :=
  if pat.data.isPrefixOf s.data then String.mk (s.data.drop pat.data.length) else s

/-- JS `s.replace(/^\//, '')`: strip one leading slash. -/
def stripLeadingSlash (s : String) : String :=
  match s.data with
  | '/' :: t => String.mk t
  | _ => s

/-- JS `s.endsWith(pat)`. -/
def jsEndsWith (s pat : String) : Bool :=
  pat.data.isSuffixOf s.data

/-- JS `a || d` for an optional string `a`: `d` when `a` is absent or
falsy (the empty string), else `a`. -/
def jsOrDefault (a : Option String) (d : String) : String :=
  match a with
  | none => d
  | some s => if s = "" then d else s

/-- JS `s.split('/')` on character lists: split at every `'/'`, keeping
empty pieces; the result is always non-empty. -/
def splitSlash : List Char → List (List Char)
  | [] => [[]]
  | c :: t =>
    if c = '/' then [] :: splitSlash t
    else
      match splitSlash t with
      | [] => [[c]]
      | h :: r => (c :: h) :: r

/-- Last element of a list with a default; models JS `arr.at(-1)` on the
(always non-empty) result of `split`. -/
def lastD (d : List Char) : List (List Char) → List Char
  | [] => d
  | [x] => x
  | _ :: y :: t => lastD d (y :: t)

/-- JS `s.split('/').at(-1)` as a string. -/
def lastSlashSegment (s : String) : String :=
  String.mk (lastD [] (splitSlash s.data))

namespace AwsStorage

/-- CloudFront `Origin` (the fields the plugin reads).  `Id` and
`DomainName` are service-guaranteed on real distributions; `OriginPath`
defaults to `""` when unset, which is exactly how the code treats it
(`?? ''` and truthiness tests). -/
structure Origin where
  Id : String
  DomainName : String
  OriginPath : String
  deriving DecidableEq, Repr

/-- CloudFront `CacheBehavior` (the fields the plugin reads).
`TargetOriginId` is optional because the synthesized default behavior
sets it to `this.s3Origin_?.Id`, which can be `undefined`. -/
structure CacheBehavior where
  PathPattern : String
  TargetOriginId : Option String
  ViewerProtocolPolicy : String
  deriving DecidableEq, Repr

/-- CloudFront `DistributionConfig` (the fields the plugin reads); list
wrappers collapsed to lists as described in the file header. -/
structure DistributionConfig where
  Aliases : List String
  Origins : List Origin
  DefaultCacheBehavior : Option CacheBehavior
  CacheBehaviors : List CacheBehavior
  deriving DecidableEq, Repr

/-- CloudFront `Distribution`: its own domain name (`""` for absent,
tested by truthiness at `setBaseUrl`) and its config. -/
structure Distribution where
  DomainName : String
  DistributionConfig : DistributionConfig
  deriving DecidableEq, Repr

/-- The constructor-time options/fields of `AwsStorageService` that the
modelled methods read (`""` = option not provided, per JS truthiness). -/
structure ServiceState where
  useHttps : Bool
  bucketName : String
  cloudFrontDistributionId : String
  domainName : String
  s3OriginPath : String
  cacheBehaviorPathPattern : String
  uploadOptionsACL : Option String
  uploadOptionsCacheControl : Option String
  uploadOptionsServerSideEncryption : Option String
  uploadOptionsStorageClass : Option String
  deriving DecidableEq, Repr

/-- `this.protocol_ = options.use_https ? 'https' : 'http'`. -/
def protocol (st : ServiceState) : String :=
  if st.useHttps then "https" else "http"

/-- The mutable globals set by `initAwsGlobals` / `setDefaults`
(`bucketName_`, `baseUrl_`, `s3Origin_`, `cacheBehavior_`), i.e. the
resolved configuration the codec and the facade read. -/
structure ResolvedConfig where
  bucketName : String
  baseUrl : String
  s3Origin : Option Origin
  cacheBehavior : Option CacheBehavior
  deriving DecidableEq, Repr

/-- Observable side effects: `console.warn`/`console.error` diagnostics
(typed instead of their literal message strings) and outgoing
S3/CloudFront requests. -/
inductive Event where
  | warnDomainNotInAliases (domainName : String)
  | warnNoAliases
  | warnOriginPathNotFound (path : String)
  | errorNoS3Origin
  | warnBucketFromDistribution (bucket : String)
  | warnBucketMismatch (originBucket : String) (bucket : String)
  | warnCacheBehaviorNotFound (pattern : String)
  | warnCacheBehaviorTargetMismatch (originPath : Option String)
  | warnInvalidationFailed (path : String)
  | fetchDistribution (id : String)
  | s3Put (bucket : String) (key : String) (acl : String)
  | s3Delete (bucket : String) (key : String)
  | invalidationRequested
  deriving DecidableEq, Repr

/-- How the AWS backends answer the sends the facade issues: whether the
S3 `PutObjectCommand` / `DeleteObjectCommand` send yields a truthy
result, and whether the CloudFront `CreateInvalidationCommand` send
throws. -/
structure Backend where
  putSucceeds : Bool
  deleteSucceeds : Bool
  invalidationThrows : Bool
  deriving DecidableEq, Repr

/-- `setDefaults(s3OriginPath, domainName?)`, aws-storage.ts lines
104-120. -/
def setDefaults (st : ServiceState) (s3OriginPath domainName : String) : ResolvedConfig :=
  let baseUrl := protocol st ++ "://" ++ st.bucketName ++ ".s3.amazonaws.com"
  let baseUrl := if domainName ≠ "" then protocol st ++ "://" ++ domainName else baseUrl
  let s3Origin :=
    if s3OriginPath ≠ "" then
      some { Id := "", DomainName := st.bucketName ++ ".s3.amazonaws.com",
             OriginPath := s3OriginPath : Origin }
    else none
  { bucketName := st.bucketName, baseUrl := baseUrl, s3Origin := s3Origin,
    cacheBehavior := none }

/-- `setBaseUrl(distribution, domainName)`, aws-storage.ts lines 125-146,
returning the base URL together with the warnings it logs. -/
def setBaseUrl (st : ServiceState) (d : Distribution) (domainName : String) :
    String × List Event :=
  let baseUrl := st.bucketName ++ ".s3.amazonaws.com"
  let baseUrl := if d.DomainName ≠ "" then d.DomainName else baseUrl
  let step :=
    if domainName ≠ "" then
      if d.DistributionConfig.Aliases ≠ [] then
        if ¬ d.DistributionConfig.Aliases.contains domainName then
          (baseUrl, [Event.warnDomainNotInAliases domainName])
        else (domainName, [])
      else (baseUrl, [Event.warnNoAliases])
    else (baseUrl, [])
  (protocol st ++ "://" ++ step.1, step.2)

/-- `setS3Origin(distributionConfig, s3Origin)`, aws-storage.ts lines
151-178: pick the storage-eligible origin, returning it with the
diagnostics logged. -/
def setS3Origin (dc : DistributionConfig) (s3Origin : String) :
    Option Origin × List Event :=
  let s3Origins := dc.Origins.filter (fun o => jsEndsWith o.DomainName ".s3.amazonaws.com")
  let defaultCacheBehaviorOriginId := dc.DefaultCacheBehavior.bind (·.TargetOriginId)
  let origin :=
    (s3Origins.find? (fun o => some o.Id == defaultCacheBehaviorOriginId)).orElse
      (fun _ => s3Origins.head?)
  let step :=
    if s3Origins ≠ [] then
      if s3Origin ≠ "" then
        let foundOrigin := s3Origins.find? (fun o => o.OriginPath == s3Origin)
        if foundOrigin = none ∧ origin ≠ none then
          (origin, [Event.warnOriginPathNotFound s3Origin])
        else (foundOrigin, [])
      else (origin, [])
    else
      if s3Origin ≠ "" ∧ origin ≠ none then
        (origin, [Event.warnOriginPathNotFound s3Origin])
      else (origin, [])
  if step.1 = none then (step.1, step.2 ++ [Event.errorNoS3Origin])
  else step

/-- `validateS3BucketName(origin)`, aws-storage.ts lines 183-195.  The
source dereferences `origin.DomainName` *before* its `if (origin)`
guard, so a `null` origin throws a `TypeError`; the result is the
(possibly updated) `bucketName_`. -/
def validateS3BucketName (st : ServiceState) (origin : Option Origin) :
    Except String (String × List Event) :=
  match origin with
  | none => Except.error "TypeError: cannot read DomainName of null"
  | some o =>
    let originBucketName := replaceFirst o.DomainName ".s3.amazonaws.com" ""
    if st.bucketName = "" then
      Except.ok (originBucketName, [Event.warnBucketFromDistribution originBucketName])
    else if originBucketName ≠ st.bucketName then
      Except.ok (originBucketName, [Event.warnBucketMismatch originBucketName st.bucketName])
    else Except.ok (st.bucketName, [])

/-- The `defaultCacheBehavior` literal built at the top of
`setCacheBehaviorPathPattern` (aws-storage.ts lines 205-214): pattern
`*`, target `this.s3Origin_?.Id`, policy `allow-all`, with target and
policy overwritten from `DistributionConfig.DefaultCacheBehavior` when
that is present. -/
def defaultCacheBehaviorFor (dc : DistributionConfig) (s3Origin : Option Origin) :
    CacheBehavior :=
  match dc.DefaultCacheBehavior with
  | some d =>
    { PathPattern := "*", TargetOriginId := d.TargetOriginId,
      ViewerProtocolPolicy := d.ViewerProtocolPolicy }
  | none =>
    { PathPattern := "*", TargetOriginId := s3Origin.map (·.Id),
      ViewerProtocolPolicy := "allow-all" }

/-- The `let cacheBehavior` selection of `setCacheBehaviorPathPattern`
(aws-storage.ts lines 216-230): the preference lookup before the final
consistency check, together with its warning. -/
def chooseCacheBehavior (dc : DistributionConfig) (s3Origin : Option Origin)
    (cacheBehaviorPathPattern : String) : CacheBehavior × List Event :=
  let dflt := defaultCacheBehaviorFor dc s3Origin
  if dc.CacheBehaviors ≠ [] then
    if cacheBehaviorPathPattern ≠ "" then
      match dc.CacheBehaviors.find? (fun c => c.PathPattern == cacheBehaviorPathPattern) with
      | none => (dflt, [Event.warnCacheBehaviorNotFound cacheBehaviorPathPattern])
      | some c => (c, [])
    else (dflt, [])
  else
    if cacheBehaviorPathPattern ≠ "" then
      (dflt, [Event.warnCacheBehaviorNotFound cacheBehaviorPathPattern])
    else (dflt, [])

/-- `setCacheBehaviorPathPattern(distributionConfig,
cacheBehaviorPathPattern)`, aws-storage.ts lines 200-239 (the
`this.s3Origin_` field it reads is passed explicitly): the
`chooseCacheBehavior` selection followed by the lines 232-236
consistency check, which falls back to the default cache behavior on a
target-origin mismatch. -/
def setCacheBehaviorPathPattern (dc : DistributionConfig) (s3Origin : Option Origin)
    (cacheBehaviorPathPattern : String) : CacheBehavior × List Event :=
  let dflt := defaultCacheBehaviorFor dc s3Origin
  let step := chooseCacheBehavior dc s3Origin cacheBehaviorPathPattern
  if step.1.TargetOriginId ≠ s3Origin.map (·.Id) then
    let targetOrigin := dc.Origins.find? (fun o => some o.Id == step.1.TargetOriginId)
    (dflt, step.2 ++ [Event.warnCacheBehaviorTargetMismatch (targetOrigin.map (·.OriginPath))])
  else step

/-- `getUrlFromKey(key, relative)`, aws-storage.ts lines 241-261.  The
non-wildcard path-pattern branch is the source's unimplemented `TODO`:
the relative path is left unchanged. -/
def getUrlFromKey (cfg : ResolvedConfig) (key : String) (relative : Bool) : String :=
  let relativePath := "/" ++ key
  let relativePath :=
    match cfg.cacheBehavior with
    | none => relativePath
    | some cb =>
      let originPath := (cfg.s3Origin.map (·.OriginPath)).getD ""
      if cb.PathPattern = "*" then stripAnchored relativePath originPath
      else relativePath
  if relative then relativePath else cfg.baseUrl ++ relativePath

/-- The `file` argument of `getKeyFromFile` (only `originalname` is
read; `file.path` only selects the transfer body, which is not
modelled). -/
structure FileRec where
  originalname : String
  deriving DecidableEq, Repr

/-- `getKeyFromFile(file)`, aws-storage.ts lines 263-278. -/
def getKeyFromFile (cfg : ResolvedConfig) (file : Option FileRec) : String :=
  match file with
  | none => ""
  | some f =>
    let key := ""
    let key :=
      match cfg.s3Origin with
      | some o =>
        if o.OriginPath ≠ "" then key ++ stripLeadingSlash o.OriginPath ++ "/" else key
      | none => key
    key ++ f.originalname

/-- `initAwsGlobals({domainName, s3OriginPath, cacheBehaviorPathPattern})`,
aws-storage.ts lines 280-304.  The descriptor fetch
(`getCloudFrontDistribution`, lines 90-102, including its own throw on a
falsy response) is the `fetch` parameter; any throw inside the `try` is
caught and answered with `setDefaults(s3OriginPath)` — note: without the
domain name. -/
def initAwsGlobals (st : ServiceState) (fetch : Except String Distribution)
    (domainName s3OriginPath cacheBehaviorPathPattern : String) :
    ResolvedConfig × List Event :=
  if st.cloudFrontDistributionId = "" then
    (setDefaults st s3OriginPath domainName, [])
  else
    let fev := [Event.fetchDistribution st.cloudFrontDistributionId]
    match fetch with
    | Except.error _ => (setDefaults st s3OriginPath "", fev)
    | Except.ok dist =>
      let dc := dist.DistributionConfig
      let so := setS3Origin dc s3OriginPath
      match validateS3BucketName st so.1 with
      | Except.error _ => (setDefaults st s3OriginPath "", fev ++ so.2)
      | Except.ok vres =>
        let st2 := { st with bucketName := vres.1 }
        let bu := setBaseUrl st2 dist domainName
        let cb := setCacheBehaviorPathPattern dc so.1 cacheBehaviorPathPattern
        ({ bucketName := vres.1, baseUrl := bu.1, s3Origin := so.1,
           cacheBehavior := some cb.1 },
         fev ++ so.2 ++ vres.2 ++ bu.2 ++ cb.2)

/-- The fields of `PutObjectCommandInput` the model tracks (`Body` is a
stream, not modelled). -/
structure PutInput where
  Bucket : String
  Key : String
  ACL : String
  CacheControl : Option String
  ServerSideEncryption : Option String
  StorageClass : Option String
  deriving DecidableEq, Repr

/-- `getPutObjectCommandInput(file, isProtected)`, aws-storage.ts lines
306-314: the spread of `uploadOptions_` supplies the optional upload
options, and the trailing `ACL:` entry overrides the spread with
`'private'` when protected, else `this.uploadOptions_.ACL || 'public-read'`. -/
def getPutObjectCommandInput (st : ServiceState) (cfg : ResolvedConfig)
    (file : Option FileRec) (isProtected : Bool) : PutInput :=
  { Bucket := cfg.bucketName,
    Key := getKeyFromFile cfg file,
    ACL := if isProtected then "private" else jsOrDefault st.uploadOptionsACL "public-read",
    CacheControl := st.uploadOptionsCacheControl,
    ServerSideEncryption := st.uploadOptionsServerSideEncryption,
    StorageClass := st.uploadOptionsStorageClass }

/-- `invalidateFile(path)`, aws-storage.ts lines 346-367: early return
when no distribution id is configured or the path is falsy; otherwise
the `CreateInvalidationCommand` send is issued and a throw from it is
caught and logged (`console.warn`), never rethrown. -/
def invalidateFile (st : ServiceState) (be : Backend) (path : String) : List Event :=
  if st.cloudFrontDistributionId = "" ∨ path = "" then []
  else
    if be.invalidationThrows then
      [Event.invalidationRequested, Event.warnInvalidationFailed path]
    else [Event.invalidationRequested]

/-- `FileServiceUploadResult` (the `url` the host receives). -/
structure FileServiceUploadResult where
  url : String
  deriving DecidableEq, Repr

/-- `uploadFile(file, isProtected)`, aws-storage.ts lines 316-331. -/
def uploadFile (st : ServiceState) (cfg : ResolvedConfig) (be : Backend)
    (file : Option FileRec) (isProtected : Bool) :
    Except String FileServiceUploadResult × List Event :=
  let params := getPutObjectCommandInput st cfg file isProtected
  let putEvs := [Event.s3Put params.Bucket params.Key params.ACL]
  if be.putSucceeds then
    let invEvs := invalidateFile st be (getUrlFromKey cfg params.Key true)
    (Except.ok { url := getUrlFromKey cfg params.Key false }, putEvs ++ invEvs)
  else (Except.error "File upload failed", putEvs)

/-- `removeFile(fileKey)`, aws-storage.ts lines 333-344. -/
def removeFile (cfg : ResolvedConfig) (be : Backend) (fileKey : String) :
    Except String Unit × List Event :=
  let evs := [Event.s3Delete cfg.bucketName fileKey]
  if be.deleteSucceeds then (Except.ok (), evs)
  else (Except.error "File deletion failed", evs)

/-- `upload(file)`, aws-storage.ts lines 369-377: resolve configuration
(with the constructor-stored preferences), then `uploadFile(file)`. -/
def upload (st : ServiceState) (be : Backend) (fetch : Except String Distribution)
    (file : Option FileRec) : Except String FileServiceUploadResult × List Event :=
  let p := initAwsGlobals st fetch st.domainName st.s3OriginPath st.cacheBehaviorPathPattern
  let r := uploadFile st p.1 be file false
  (r.1, p.2 ++ r.2)

/-- `delete(file)`, aws-storage.ts lines 389-396: resolve configuration,
then `removeFile(file.fileKey)`. -/
def delete (st : ServiceState) (be : Backend) (fetch : Except String Distribution)
    (fileKey : String) : Except String Unit × List Event :=
  let p := initAwsGlobals st fetch st.domainName st.s3OriginPath st.cacheBehaviorPathPattern
  let r := removeFile p.1 be fileKey
  (r.1, p.2 ++ r.2)

/-- The key handed to the signer by `getPresignedDownloadUrl(fileData)`,
aws-storage.ts lines 444-469: `fileData.fileKey.split('/').at(-1)` is
wrapped as `{originalname}` and run through
`getPutObjectCommandInput`, so the signed key is `getKeyFromFile` of the
last slash-separated segment. -/
def presignedKey (cfg : ResolvedConfig) (fileKey : String) : String :=
  let fileName := lastSlashSegment fileKey
  getKeyFromFile cfg (some { originalname := fileName })

/-- The origin-path key prefix that `getKeyFromFile` prepends: the
resolved origin path with its leading slash stripped plus `/`, or
nothing when no origin path is resolved. -/
def originPrefix (cfg : ResolvedConfig) : String :=
  match cfg.s3Origin with
  | some o => if o.OriginPath ≠ "" then stripLeadingSlash o.OriginPath ++ "/" else ""
  | none => ""

/-! ### Sample inputs used by witnesses and counterexamples -/


/-- A service configured with a CloudFront distribution id and a
requested domain name. -/
def sampleStateCdn : ServiceState :=
  { useHttps := false, bucketName := "b", cloudFrontDistributionId := "DIST",
    domainName := "cdn.example.com", s3OriginPath := "", cacheBehaviorPathPattern := "",
    uploadOptionsACL := none, uploadOptionsCacheControl := none,
    uploadOptionsServerSideEncryption := none, uploadOptionsStorageClass := none }

/-- A service with no CloudFront distribution and an `/assets` origin
path preference. -/
def sampleStateNoCdn : ServiceState :=
  { useHttps := false, bucketName := "b", cloudFrontDistributionId := "",
    domainName := "", s3OriginPath := "/assets", cacheBehaviorPathPattern := "",
    uploadOptionsACL := none, uploadOptionsCacheControl := none,
    uploadOptionsServerSideEncryption := none, uploadOptionsStorageClass := none }

/-- A distribution whose default cache behavior targets a non-S3 origin
(`X`) while its only storage-eligible origin is `A`. -/
def sampleDistMismatch : Distribution :=
  { DomainName := "dist.cloudfront.net",
    DistributionConfig :=
      { Aliases := [],
        Origins := [ { Id := "A", DomainName := "b.s3.amazonaws.com", OriginPath := "" },
                     { Id := "X", DomainName := "web.example.com", OriginPath := "" } ],
        DefaultCacheBehavior := some { PathPattern := "*", TargetOriginId := some "X",
                                       ViewerProtocolPolicy := "redirect-to-https" },
        CacheBehaviors := [] } }

/-- A distribution whose default cache behavior targets its (single,
storage-eligible) origin `A`. -/
def sampleDistGood : Distribution :=
  { DomainName := "dist.cloudfront.net",
    DistributionConfig :=
      { Aliases := ["cdn.example.com"],
        Origins := [ { Id := "A", DomainName := "b.s3.amazonaws.com", OriginPath := "" } ],
        DefaultCacheBehavior := some { PathPattern := "*", TargetOriginId := some "A",
                                       ViewerProtocolPolicy := "allow-all" },
        CacheBehaviors := [] } }

/-- A sample file argument. -/
def sampleFile : FileRec := { originalname := "photo.png" }

/-- A backend whose put succeeds, whose delete reports no result, and
whose invalidation send throws. -/
def sampleBackendFlaky : Backend :=
  { putSucceeds := true, deleteSucceeds := false, invalidationThrows := true }

/-- A resolved no-CDN configuration with origin path `/assets`. -/
def sampleConfigAssets : ResolvedConfig :=
  { bucketName := "b", baseUrl := "http://b.s3.amazonaws.com",
    s3Origin := some { Id := "", DomainName := "b.s3.amazonaws.com", OriginPath := "/assets" },
    cacheBehavior := none }

end AwsStorage

namespace S3File

/-- The fields of the `s3.ts` service variant that its key/URL codec
reads (`baseUrl_`, `s3Origin_`, `cacheBehavior_`); the `Origin` and
`CacheBehavior` shapes are the same as in `aws-storage.ts`. -/
structure Config where
  baseUrl : String
  s3Origin : Option AwsStorage.Origin
  cacheBehavior : Option AwsStorage.CacheBehavior
  deriving DecidableEq, Repr

/-- `getUrlFromKey(key, relative)`, s3.ts lines 189-209 (same body as
the aws-storage.ts variant; the non-wildcard branch is the source's
unimplemented `TODO`). -/
def getUrlFromKey (cfg : Config) (key : String) (relative : Bool) : String :=
  let relativePath := "/" ++ key
  let relativePath :=
    match cfg.cacheBehavior with
    | none => relativePath
    | some cb =>
      let originPath := (cfg.s3Origin.map (·.OriginPath)).getD ""
      if cb.PathPattern = "*" then stripAnchored relativePath originPath
      else relativePath
  if relative then relativePath else cfg.baseUrl ++ relativePath

/-- `getKeyFromUrl(url)`, s3.ts lines 211-226: strip the first
occurrence of `baseUrl_`, re-prepend the origin path under a wildcard
cache behavior, then strip the leading slash. -/
def getKeyFromUrl (cfg : Config) (url : String) : String :=
  let relativePath := replaceFirst url cfg.baseUrl ""
  let relativePath :=
    match cfg.cacheBehavior with
    | none => relativePath
    | some cb =>
      let originPath := (cfg.s3Origin.map (·.OriginPath)).getD ""
      if cb.PathPattern = "*" then originPath ++ relativePath
      else relativePath
  stripLeadingSlash relativePath

/-- `getKeyFromFile(file)`, s3.ts lines 228-243 (same body as the
aws-storage.ts variant). -/
def getKeyFromFile (cfg : Config) (file : Option AwsStorage.FileRec) : String :=
  match file with
  | none => ""
  | some f =>
    let key := ""
    let key :=
      match cfg.s3Origin with
      | some o =>
        if o.OriginPath ≠ "" then key ++ stripLeadingSlash o.OriginPath ++ "/" else key
      | none => key
    key ++ f.originalname

end S3File

/-! ### Helper lemmas about the JS string primitives -/

theorem idxOf_of_isPrefixOf (p s : List Char) (h : p.isPrefixOf s) : idxOf p s = some 0 := by
  cases s <;> simp [idxOf, h]

theorem replaceFirst_append_self (a b : String) : replaceFirst (a ++ b) a "" = b := by
  have hp : a.data.isPrefixOf (a ++ b).data := by
    rw [String.data_append, List.isPrefixOf_iff_prefix]
    exact List.prefix_append _ _
  have hidx : idxOf a.data (a ++ b).data = some 0 := idxOf_of_isPrefixOf _ _ hp
  unfold replaceFirst
  rw [hidx]
  apply String.ext
  simp [String.data_append, List.drop_left]

namespace AwsStorage

/-! ### Event-trace lemmas: the resolver never issues an invalidation -/

theorem setBaseUrl_no_invalidation (st : ServiceState) (d : Distribution)
    (domainName : String) : Event.invalidationRequested ∉ (setBaseUrl st d domainName).2 := by
  unfold setBaseUrl
  split_ifs <;> simp

theorem setS3Origin_no_invalidation (dc : DistributionConfig) (s3Origin : String) :
    Event.invalidationRequested ∉ (setS3Origin dc s3Origin).2 := by
  unfold setS3Origin
  simp only [apply_ite Prod.snd, apply_ite Prod.fst]
  split_ifs <;> simp

theorem validateS3BucketName_no_invalidation (st : ServiceState) (origin : Option Origin)
    (r : String × List Event) (h : validateS3BucketName st origin = Except.ok r) :
    Event.invalidationRequested ∉ r.2 := by
  unfold validateS3BucketName at h
  cases origin with
  | none => cases h
  | some o =>
    rcases Decidable.em (st.bucketName = "") with h1 | h1 <;>
      rcases Decidable.em (replaceFirst o.DomainName ".s3.amazonaws.com" "" = st.bucketName)
        with h2 | h2 <;>
      simp only [h1, h2, if_true, if_false, ite_true, ite_false, Ne, not_false_iff,
        not_true, reduceIte] at h <;>
      (cases h; simp)

theorem setCacheBehaviorPathPattern_no_invalidation (dc : DistributionConfig)
    (s3Origin : Option Origin) (pat : String) :
    Event.invalidationRequested ∉ (setCacheBehaviorPathPattern dc s3Origin pat).2 := by
  have hch : Event.invalidationRequested ∉ (chooseCacheBehavior dc s3Origin pat).2 := by
    unfold chooseCacheBehavior
    cases hfind : dc.CacheBehaviors.find? (fun c => c.PathPattern == pat) <;>
      simp only [hfind, apply_ite Prod.snd, apply_ite Prod.fst] <;>
      split_ifs <;> simp
  unfold setCacheBehaviorPathPattern
  dsimp only
  split_ifs <;> simpa using hch

theorem initAwsGlobals_no_invalidation (st : ServiceState) (fetch : Except String Distribution)
    (dn op cbp : String) :
    Event.invalidationRequested ∉ (initAwsGlobals st fetch dn op cbp).2 := by
  unfold initAwsGlobals
  split_ifs with h
  · simp
  · cases fetch with
    | error e => simp
    | ok dist =>
      simp only []
      cases hv : validateS3BucketName st (setS3Origin dist.DistributionConfig op).1 with
      | error e => simp [setS3Origin_no_invalidation]
      | ok vres =>
        simp only [List.append_assoc, List.mem_append, List.mem_singleton]
        push_neg
        refine ⟨?_, setS3Origin_no_invalidation _ _, ?_, ?_, ?_⟩
        · simp
        · exact validateS3BucketName_no_invalidation _ _ _ hv
        · exact setBaseUrl_no_invalidation _ _ _
        · exact setCacheBehaviorPathPattern_no_invalidation _ _ _

/-! ### Claim theorems -/

/-- C4: if the S3 put reports a successful result and the subsequent
CloudFront invalidation send throws, `upload` still returns the computed
absolute public URL; the invalidation error is caught inside
`invalidateFile` and never propagated. -/
theorem upload_survives_invalidation_failure (st : ServiceState) (be : Backend)
    (fetch : Except String Distribution) (file : Option FileRec)
    (hput : be.putSucceeds = true) (_hinv : be.invalidationThrows = true) :
    (upload st be fetch file).1 =
      Except.ok { url := (getUrlFromKey
        (initAwsGlobals st fetch st.domainName st.s3OriginPath st.cacheBehaviorPathPattern).1
        (getPutObjectCommandInput st
          (initAwsGlobals st fetch st.domainName st.s3OriginPath st.cacheBehaviorPathPattern).1
          file false).Key false) } := by
  simp [upload, uploadFile, hput]

/-- C4 witness: a concrete flaky backend (put succeeds, invalidation
throws) on which `upload` returns the computed URL. -/
theorem upload_survives_invalidation_failure_witness :
    (upload sampleStateCdn sampleBackendFlaky (Except.ok sampleDistGood) (some sampleFile)).1 =
      Except.ok { url := (getUrlFromKey
        (initAwsGlobals sampleStateCdn (Except.ok sampleDistGood) sampleStateCdn.domainName
          sampleStateCdn.s3OriginPath sampleStateCdn.cacheBehaviorPathPattern).1
        (getPutObjectCommandInput sampleStateCdn
          (initAwsGlobals sampleStateCdn (Except.ok sampleDistGood) sampleStateCdn.domainName
            sampleStateCdn.s3OriginPath sampleStateCdn.cacheBehaviorPathPattern).1
          (some sampleFile) false).Key false) } :=
  upload_survives_invalidation_failure sampleStateCdn sampleBackendFlaky
    (Except.ok sampleDistGood) (some sampleFile) rfl rfl

/-- C5: when the S3 delete send reports no result, `delete` fails with
the deletion-failure error, and no execution of `delete` (success or
failure) ever issues a CloudFront invalidation request. -/
theorem delete_failure_and_no_invalidation :
    (∀ (st : ServiceState) (be : Backend) (fetch : Except String Distribution)
        (fileKey : String), be.deleteSucceeds = false →
        (delete st be fetch fileKey).1 = Except.error "File deletion failed")
    ∧ (∀ (st : ServiceState) (be : Backend) (fetch : Except String Distribution)
        (fileKey : String),
        Event.invalidationRequested ∉ (delete st be fetch fileKey).2) := by
  constructor
  · intro st be fetch fileKey h
    simp [delete, removeFile, h]
  · intro st be fetch fileKey
    simp only [delete, removeFile]
    intro hmem
    rcases List.mem_append.mp hmem with h | h
    · exact initAwsGlobals_no_invalidation _ _ _ _ _ h
    · split_ifs at h <;> simp at h

/-- C5 witness: on a backend whose delete reports no result, `delete`
fails with the deletion error and its trace holds no invalidation
request. -/
theorem delete_failure_and_no_invalidation_witness :
    (delete sampleStateCdn sampleBackendFlaky (Except.ok sampleDistGood) "k").1 =
      Except.error "File deletion failed"
    ∧ Event.invalidationRequested ∉
        (delete sampleStateCdn sampleBackendFlaky (Except.ok sampleDistGood) "k").2 :=
  ⟨delete_failure_and_no_invalidation.1 sampleStateCdn sampleBackendFlaky
      (Except.ok sampleDistGood) "k" rfl,
   delete_failure_and_no_invalidation.2 sampleStateCdn sampleBackendFlaky
      (Except.ok sampleDistGood) "k"⟩

/-- C8: the ACL in the put input is `private` whenever the protected
flag is set, regardless of the configured upload options; otherwise it
is the configured ACL option when one is configured (non-empty), and
`public-read` when none is. -/
theorem putObject_acl_policy (st : ServiceState) (cfg : ResolvedConfig)
    (file : Option FileRec) (isProtected : Bool) :
    (isProtected = true → (getPutObjectCommandInput st cfg file isProtected).ACL = "private")
    ∧ (isProtected = false → st.uploadOptionsACL = none →
        (getPutObjectCommandInput st cfg file isProtected).ACL = "public-read")
    ∧ (∀ a : String, isProtected = false → st.uploadOptionsACL = some a → a ≠ "" →
        (getPutObjectCommandInput st cfg file isProtected).ACL = a) := by
  refine ⟨fun h => ?_, fun h hn => ?_, fun a h hs ha => ?_⟩
  · simp [getPutObjectCommandInput, h]
  · simp [getPutObjectCommandInput, h, hn, jsOrDefault]
  · simp [getPutObjectCommandInput, h, hs, jsOrDefault, ha]

/-- C8 witness: concrete evaluations of the three ACL cases. -/
theorem putObject_acl_policy_witness :
    (getPutObjectCommandInput sampleStateCdn (setDefaults sampleStateCdn "" "")
        (some sampleFile) true).ACL = "private"
    ∧ (getPutObjectCommandInput sampleStateCdn (setDefaults sampleStateCdn "" "")
        (some sampleFile) false).ACL = "public-read"
    ∧ (getPutObjectCommandInput { sampleStateCdn with uploadOptionsACL := some "authenticated-read" }
        (setDefaults sampleStateCdn "" "") (some sampleFile) false).ACL = "authenticated-read" :=
  ⟨(putObject_acl_policy sampleStateCdn _ (some sampleFile) true).1 rfl,
   (putObject_acl_policy sampleStateCdn _ (some sampleFile) false).2.1 rfl rfl,
   (putObject_acl_policy { sampleStateCdn with uploadOptionsACL := some "authenticated-read" }
      _ (some sampleFile) false).2.2 "authenticated-read" rfl rfl (by decide)⟩

/-- C9: `invalidateFile` returns without issuing any CloudFront request
when no distribution id is configured or the path is empty; hence
`upload` against a no-CDN configuration performs no invalidation side
effect at all. -/
theorem invalidateFile_noop_no_cdn :
    (∀ (st : ServiceState) (be : Backend) (path : String),
        st.cloudFrontDistributionId = "" ∨ path = "" → invalidateFile st be path = [])
    ∧ (∀ (st : ServiceState) (be : Backend) (fetch : Except String Distribution)
        (file : Option FileRec), st.cloudFrontDistributionId = "" →
        Event.invalidationRequested ∉ (upload st be fetch file).2) := by
  constructor
  · intro st be path h
    simp [invalidateFile, h]
  · intro st be fetch file h
    simp [upload, initAwsGlobals, h, uploadFile, invalidateFile]
    split_ifs <;> simp

/-- C3 counterexample: with a CDN configured, a requested domain name
`cdn.example.com` and a failing descriptor fetch, `initAwsGlobals`
produces the bucket base URL, not the domain-name override the claim
requires for the same preferences. -/
theorem initAwsGlobals_fetchError_drops_domain :
    (initAwsGlobals sampleStateCdn (Except.error "boom") "cdn.example.com" "" "").1.baseUrl
      = "http://b.s3.amazonaws.com"
    ∧ (initAwsGlobals sampleStateCdn (Except.error "boom") "cdn.example.com" "" "").1.baseUrl
      ≠ "http://cdn.example.com" := by
  constructor
  · rfl
  · decide

/-- C3 amended: on a descriptor-fetch failure `initAwsGlobals` completes
(no error propagates) and produces the no-CDN default configuration with
the domain-name preference dropped: the base URL is always the bucket
URL, the storage origin is synthesized from the origin-path preference
when supplied, and there is no cache behavior. -/
theorem initAwsGlobals_fetchError_defaults (st : ServiceState) (e dn op cbp : String)
    (h : st.cloudFrontDistributionId ≠ "") :
    (initAwsGlobals st (Except.error e) dn op cbp).1.baseUrl
      = protocol st ++ "://" ++ st.bucketName ++ ".s3.amazonaws.com"
    ∧ (initAwsGlobals st (Except.error e) dn op cbp).1.cacheBehavior = none
    ∧ (initAwsGlobals st (Except.error e) dn op cbp).1.s3Origin
      = (if op ≠ "" then
          some { Id := "", DomainName := st.bucketName ++ ".s3.amazonaws.com",
                 OriginPath := op }
        else none)
    ∧ (initAwsGlobals st (Except.error e) dn op cbp).1.bucketName = st.bucketName := by
  unfold initAwsGlobals
  rw [if_neg h]
  simp [setDefaults]

/-- C3 amended witness: a concrete CDN-configured service with origin
path `/assets`, a requested domain and a failing fetch. -/
theorem initAwsGlobals_fetchError_defaults_witness :
    (initAwsGlobals sampleStateCdn (Except.error "boom") "x.com" "/assets" "").1.baseUrl
      = protocol sampleStateCdn ++ "://" ++ sampleStateCdn.bucketName ++ ".s3.amazonaws.com"
    ∧ (initAwsGlobals sampleStateCdn (Except.error "boom") "x.com" "/assets" "").1.cacheBehavior
      = none
    ∧ (initAwsGlobals sampleStateCdn (Except.error "boom") "x.com" "/assets" "").1.s3Origin
      = (if "/assets" ≠ "" then
          some { Id := "",
                 DomainName := sampleStateCdn.bucketName ++ ".s3.amazonaws.com",
                 OriginPath := "/assets" }
        else none)
    ∧ (initAwsGlobals sampleStateCdn (Except.error "boom") "x.com" "/assets" "").1.bucketName
      = sampleStateCdn.bucketName :=
  initAwsGlobals_fetchError_defaults sampleStateCdn "boom" "x.com" "/assets" "" (by decide)

/-- C1 counterexample: a distribution whose default cache behavior
targets the non-S3 origin `X` while the only storage-eligible origin is
`A`; the resolver finishes with both a cache behavior and a storage
origin, but the cache behavior's target origin id is `X`, not `A`: the
substituted default does not establish the claimed equality. -/
theorem resolver_target_mismatch_possible :
    ∃ (cb : CacheBehavior) (o : Origin),
      (initAwsGlobals sampleStateCdn (Except.ok sampleDistMismatch) "" "" "").1.cacheBehavior
        = some cb
      ∧ (initAwsGlobals sampleStateCdn (Except.ok sampleDistMismatch) "" "" "").1.s3Origin
        = some o
      ∧ cb.TargetOriginId ≠ some o.Id := by
  refine ⟨{ PathPattern := "*", TargetOriginId := some "X",
            ViewerProtocolPolicy := "redirect-to-https" },
          { Id := "A", DomainName := "b.s3.amazonaws.com", OriginPath := "" },
          by decide, by decide, by decide⟩

/-- Mismatch check of `setCacheBehaviorPathPattern`: the returned cache
behavior either already targets the resolved origin or is the default
cache behavior. -/
theorem setCacheBehaviorPathPattern_target (dc : DistributionConfig) (o : Option Origin)
    (pref : String) :
    (setCacheBehaviorPathPattern dc o pref).1.TargetOriginId = o.map (·.Id)
    ∨ (setCacheBehaviorPathPattern dc o pref).1 = defaultCacheBehaviorFor dc o := by
  unfold setCacheBehaviorPathPattern
  by_cases h : (chooseCacheBehavior dc o pref).1.TargetOriginId ≠ o.map (·.Id)
  · rw [if_pos h]
    exact Or.inr rfl
  · rw [if_neg h]
    exact Or.inl (not_not.mp h)

/-- When the default cache behavior targets the resolved origin, the
final cache behavior does too. -/
theorem setCacheBehaviorPathPattern_target_of_default (dc : DistributionConfig)
    (o : Option Origin) (pref : String)
    (H : (defaultCacheBehaviorFor dc o).TargetOriginId = o.map (·.Id)) :
    (setCacheBehaviorPathPattern dc o pref).1.TargetOriginId = o.map (·.Id) := by
  rcases setCacheBehaviorPathPattern_target dc o pref with h | h
  · exact h
  · rw [h, H]

/-- C1 amended: the resolver is total (the model returns a configuration
for every input), and after the mismatch check the chosen cache behavior
either targets the resolved storage origin or is the default cache
behavior; the claimed equality `cacheBehavior.TargetOriginId =
storageOrigin.Id` is guaranteed whenever the distribution's default
cache behavior itself targets the resolved storage origin (in
particular when the descriptor has no `DefaultCacheBehavior`), but not
in general. -/
theorem resolver_targetOrigin_consistency :
    (∀ (dc : DistributionConfig) (o : Option Origin) (pref : String),
        (setCacheBehaviorPathPattern dc o pref).1.TargetOriginId = o.map (·.Id)
        ∨ (setCacheBehaviorPathPattern dc o pref).1 = defaultCacheBehaviorFor dc o)
    ∧ (∀ (st : ServiceState) (dist : Distribution) (dn op cbp : String),
        (defaultCacheBehaviorFor dist.DistributionConfig
            (setS3Origin dist.DistributionConfig op).1).TargetOriginId
          = (setS3Origin dist.DistributionConfig op).1.map (·.Id) →
        ∀ (cb : CacheBehavior) (o : Origin),
          (initAwsGlobals st (Except.ok dist) dn op cbp).1.cacheBehavior = some cb →
          (initAwsGlobals st (Except.ok dist) dn op cbp).1.s3Origin = some o →
          cb.TargetOriginId = some o.Id) := by
  refine ⟨setCacheBehaviorPathPattern_target, ?_⟩
  intro st dist dn op cbp H cb o hcb ho
  by_cases hid : st.cloudFrontDistributionId = ""
  · simp [initAwsGlobals, hid, setDefaults] at hcb
  · unfold initAwsGlobals at hcb ho
    rw [if_neg hid] at hcb ho
    dsimp only at hcb ho
    cases hv : validateS3BucketName st (setS3Origin dist.DistributionConfig op).1 with
    | error err =>
      rw [hv] at hcb
      simp [setDefaults] at hcb
    | ok vres =>
      rw [hv] at hcb ho
      dsimp only at hcb ho
      have htgt := setCacheBehaviorPathPattern_target_of_default
        dist.DistributionConfig (setS3Origin dist.DistributionConfig op).1 cbp H
      cases hcb
      rw [htgt, ho]
      rfl

/-- C1 amended witness: a distribution whose default cache behavior
targets the storage origin `A`; the resolved cache behavior targets the
resolved origin. -/
theorem resolver_targetOrigin_consistency_witness :
    ∃ (cb : CacheBehavior) (o : Origin),
      (initAwsGlobals sampleStateCdn (Except.ok sampleDistGood) "" "" "").1.cacheBehavior
        = some cb
      ∧ (initAwsGlobals sampleStateCdn (Except.ok sampleDistGood) "" "" "").1.s3Origin
        = some o
      ∧ cb.TargetOriginId = some o.Id := by
  refine ⟨_, _, rfl, rfl, ?_⟩
  exact resolver_targetOrigin_consistency.2 sampleStateCdn sampleDistGood "" "" ""
    (by decide) _ _ rfl rfl

/-- C6: with no CDN configured and origin-path preference `/assets` (and
no domain-name preference), the key for logical name `a.png` is
`assets/a.png` and its absolute URL is the plain concatenation
`scheme://bucket.s3.amazonaws.com/assets/a.png`. -/
theorem noCdn_assets_key_and_url (st : ServiceState) (fetch : Except String Distribution)
    (h1 : st.cloudFrontDistributionId = "") (h2 : st.s3OriginPath = "/assets")
    (h3 : st.domainName = "") :
    getKeyFromFile
        (initAwsGlobals st fetch st.domainName st.s3OriginPath st.cacheBehaviorPathPattern).1
        (some { originalname := "a.png" }) = "assets/a.png"
    ∧ getUrlFromKey
        (initAwsGlobals st fetch st.domainName st.s3OriginPath st.cacheBehaviorPathPattern).1
        "assets/a.png" false
      = protocol st ++ "://" ++ st.bucketName ++ ".s3.amazonaws.com/assets/a.png" := by
  have hcfg : (initAwsGlobals st fetch st.domainName st.s3OriginPath
      st.cacheBehaviorPathPattern).1 = setDefaults st "/assets" "" := by
    unfold initAwsGlobals
    rw [if_pos h1, h2, h3]
  rw [hcfg]
  constructor
  · rfl
  · have h4 : getUrlFromKey (setDefaults st "/assets" "") "assets/a.png" false
        = (protocol st ++ "://" ++ st.bucketName ++ ".s3.amazonaws.com") ++ "/assets/a.png" :=
      rfl
    rw [h4]
    apply String.ext
    simp only [String.data_append, List.append_assoc]
    rfl

/-- C6 witness: the no-CDN sample service with `/assets`. -/
theorem noCdn_assets_key_and_url_witness :
    getKeyFromFile
        (initAwsGlobals sampleStateNoCdn (Except.error "unused") sampleStateNoCdn.domainName
          sampleStateNoCdn.s3OriginPath sampleStateNoCdn.cacheBehaviorPathPattern).1
        (some { originalname := "a.png" }) = "assets/a.png"
    ∧ getUrlFromKey
        (initAwsGlobals sampleStateNoCdn (Except.error "unused") sampleStateNoCdn.domainName
          sampleStateNoCdn.s3OriginPath sampleStateNoCdn.cacheBehaviorPathPattern).1
        "assets/a.png" false
      = protocol sampleStateNoCdn ++ "://" ++ sampleStateNoCdn.bucketName
          ++ ".s3.amazonaws.com/assets/a.png" :=
  noCdn_assets_key_and_url sampleStateNoCdn (Except.error "unused") rfl rfl rfl

/-- C7: when the distribution has a non-empty alias list that does not
contain the requested domain name, `setBaseUrl` keeps the distribution's
own domain name (scheme-prefixed) and logs the degraded-configuration
warning; it never throws (it is total). -/
theorem setBaseUrl_alias_fallback (st : ServiceState) (d : Distribution) (dn : String)
    (h1 : dn ≠ "") (h2 : d.DistributionConfig.Aliases ≠ [])
    (h3 : dn ∉ d.DistributionConfig.Aliases) (h4 : d.DomainName ≠ "") :
    (setBaseUrl st d dn).1 = protocol st ++ "://" ++ d.DomainName
    ∧ Event.warnDomainNotInAliases dn ∈ (setBaseUrl st d dn).2 := by
  simp [setBaseUrl, h1, h2, h4, h3]

/-- C7 witness: requested domain `nope.example.com` against a
distribution whose only alias is `cdn.example.com`. -/
theorem setBaseUrl_alias_fallback_witness :
    (setBaseUrl sampleStateCdn sampleDistGood "nope.example.com").1
      = protocol sampleStateCdn ++ "://" ++ sampleDistGood.DomainName
    ∧ Event.warnDomainNotInAliases "nope.example.com"
        ∈ (setBaseUrl sampleStateCdn sampleDistGood "nope.example.com").2 :=
  setBaseUrl_alias_fallback sampleStateCdn sampleDistGood "nope.example.com"
    (by decide) (by decide) (by decide) (by decide)

/-- C9 witness: a no-CDN service on which `invalidateFile` is a no-op
and `upload` emits no invalidation request. -/
theorem invalidateFile_noop_no_cdn_witness :
    invalidateFile sampleStateNoCdn sampleBackendFlaky "/assets/photo.png" = []
    ∧ Event.invalidationRequested ∉
        (upload sampleStateNoCdn sampleBackendFlaky (Except.error "down") (some sampleFile)).2 :=
  ⟨invalidateFile_noop_no_cdn.1 sampleStateNoCdn sampleBackendFlaky "/assets/photo.png"
      (Or.inl rfl),
   invalidateFile_noop_no_cdn.2 sampleStateNoCdn sampleBackendFlaky (Except.error "down")
      (some sampleFile) rfl⟩

end AwsStorage

/-! ### Lemmas about `splitSlash` / `lastD` (for the presigned-key claim) -/

theorem splitSlash_ne_nil (l : List Char) : splitSlash l ≠ [] := by
  cases l with
  | nil => simp [splitSlash]
  | cons c t =>
    by_cases hc : c = '/'
    · simp [splitSlash, hc]
    · cases h : splitSlash t with
      | nil => simp [splitSlash, hc, h]
      | cons x r => simp [splitSlash, hc, h]

theorem splitSlash_no_slash {l : List Char} (h : '/' ∉ l) : splitSlash l = [l] := by
  induction l with
  | nil => rfl
  | cons c t ih =>
    have hc : c ≠ '/' := by
      rintro rfl
      exact h (List.mem_cons_self _ _)
    have ht : '/' ∉ t := fun m => h (List.mem_cons_of_mem _ m)
    simp [splitSlash, hc, ih ht]

theorem mem_splitSlash_no_slash : ∀ {l p : List Char}, p ∈ splitSlash l → '/' ∉ p := by
  intro l
  induction l with
  | nil =>
    intro p hp
    simp [splitSlash] at hp
    subst hp
    simp
  | cons c t ih =>
    intro p hp
    by_cases hc : c = '/'
    · subst hc
      simp [splitSlash] at hp
      rcases hp with rfl | hp
      · simp
      · exact ih hp
    · cases h : splitSlash t with
      | nil => exact absurd h (splitSlash_ne_nil t)
      | cons x r =>
        simp [splitSlash, hc, h] at hp
        rcases hp with rfl | hp
        · intro hmem
          rcases List.mem_cons.mp hmem with heq | hx
          · exact hc heq.symm
          · exact ih (h ▸ List.mem_cons_self x r) hx
        · exact ih (h ▸ List.mem_cons_of_mem _ hp)

theorem splitSlash_length_two {l : List Char} (h : '/' ∈ l) : 2 ≤ (splitSlash l).length := by
  induction l with
  | nil => simp at h
  | cons c t ih =>
    by_cases hc : c = '/'
    · subst hc
      cases hst : splitSlash t with
      | nil => exact absurd hst (splitSlash_ne_nil t)
      | cons x r => simp [splitSlash, hst]
    · have ht : '/' ∈ t := by
        rcases List.mem_cons.mp h with h1 | h1
        · exact absurd h1.symm hc
        · exact h1
      have iht := ih ht
      cases hst : splitSlash t with
      | nil => exact absurd hst (splitSlash_ne_nil t)
      | cons x r =>
        rw [hst] at iht
        simp [splitSlash, hc, hst]
        simp at iht
        omega

theorem lastD_cons_of_ne (d x : List Char) {r : List (List Char)} (h : r ≠ []) :
    lastD d (x :: r) = lastD d r := by
  cases r with
  | nil => exact absurd rfl h
  | cons y t => rfl

theorem lastD_mem (d : List Char) {r : List (List Char)} (h : r ≠ []) : lastD d r ∈ r := by
  induction r with
  | nil => exact absurd rfl h
  | cons x t ih =>
    cases t with
    | nil => simp [lastD]
    | cons y s =>
      rw [lastD_cons_of_ne d x (by simp)]
      exact List.mem_cons_of_mem _ (ih (by simp))

theorem lastD_splitSlash_append (a b : List Char) :
    lastD [] (splitSlash (a ++ '/' :: b)) = lastD [] (splitSlash b) := by
  induction a with
  | nil =>
    rw [List.nil_append]
    rw [show splitSlash ('/' :: b) = [] :: splitSlash b from by simp [splitSlash]]
    exact lastD_cons_of_ne _ _ (splitSlash_ne_nil b)
  | cons c a ih =>
    rw [List.cons_append]
    by_cases hc : c = '/'
    · subst hc
      rw [show splitSlash ('/' :: (a ++ '/' :: b)) = [] :: splitSlash (a ++ '/' :: b) from by
        simp [splitSlash]]
      rw [lastD_cons_of_ne _ _ (splitSlash_ne_nil _)]
      exact ih
    · have hmem : '/' ∈ a ++ '/' :: b := List.mem_append_right _ (List.mem_cons_self _ _)
      have hlen := splitSlash_length_two hmem
      cases hst : splitSlash (a ++ '/' :: b) with
      | nil => exact absurd hst (splitSlash_ne_nil _)
      | cons x r =>
        cases r with
        | nil =>
          rw [hst] at hlen
          simp at hlen
        | cons y s =>
          rw [show splitSlash (c :: (a ++ '/' :: b)) = (c :: x) :: y :: s from by
            simp [splitSlash, hc, hst]]
          rw [hst] at ih
          rw [show lastD ([] : List Char) ((c :: x) :: y :: s) = lastD [] (y :: s) from rfl]
          rw [show lastD ([] : List Char) (x :: y :: s) = lastD [] (y :: s) from rfl] at ih
          exact ih

theorem lastSlashSegment_no_slash (s : String) : '/' ∉ (lastSlashSegment s).data :=
  mem_splitSlash_no_slash (lastD_mem _ (splitSlash_ne_nil _))

theorem lastSlashSegment_of_append (p s : String)
    (hp : p = "" ∨ ∃ q : String, p = q ++ "/") (hs : '/' ∉ s.data) :
    lastSlashSegment (p ++ s) = s := by
  rcases hp with rfl | ⟨q, rfl⟩
  · apply String.ext
    show lastD [] (splitSlash (("" : String) ++ s).data) = s.data
    rw [show (("" : String) ++ s).data = s.data from by simp [String.data_append]]
    rw [splitSlash_no_slash hs]
    rfl
  · apply String.ext
    show lastD [] (splitSlash ((q ++ "/") ++ s).data) = s.data
    rw [show ((q ++ "/") ++ s).data = q.data ++ '/' :: s.data from by
      rw [String.data_append, String.data_append, List.append_assoc]
      rfl]
    rw [lastD_splitSlash_append q.data s.data]
    rw [splitSlash_no_slash hs]
    rfl

namespace AwsStorage

/-- `getKeyFromFile` on a present file is the origin-path prefix plus
the logical name. -/
theorem getKeyFromFile_originPrefix (cfg : ResolvedConfig) (f : FileRec) :
    getKeyFromFile cfg (some f) = originPrefix cfg ++ f.originalname := by
  unfold getKeyFromFile originPrefix
  cases h : cfg.s3Origin with
  | none => simp [h]
  | some o =>
    simp only [h]
    split_ifs with ho
    · apply String.ext
      simp [String.data_append]
    · rfl

/-- The key `getPresignedDownloadUrl` signs is the origin-path prefix
plus the last slash-separated segment of the supplied file key. -/
theorem presignedKey_eq (cfg : ResolvedConfig) (k : String) :
    presignedKey cfg k = originPrefix cfg ++ lastSlashSegment k := by
  unfold presignedKey
  exact getKeyFromFile_originPrefix cfg _

/-- The origin-path prefix is empty or ends in a slash. -/
theorem originPrefix_shape (cfg : ResolvedConfig) :
    originPrefix cfg = "" ∨ ∃ q : String, originPrefix cfg = q ++ "/" := by
  unfold originPrefix
  cases h : cfg.s3Origin with
  | none => simp [h]
  | some o =>
    simp only [h]
    split_ifs with ho
    · exact Or.inr ⟨stripLeadingSlash o.OriginPath, rfl⟩
    · exact Or.inl rfl

/-- C10: the key signed by `getPresignedDownloadUrl` is built from only
the final slash-separated segment of the supplied file key, re-prefixed
with the resolved origin path; it equals the supplied file key exactly
when that key is the origin-path prefix followed by a single slash-free
segment, and differs whenever the remainder after the prefix contains a
slash. -/
theorem presignedKey_last_segment (cfg : ResolvedConfig) (fileKey : String) :
    (presignedKey cfg fileKey = fileKey ↔
      ∃ seg : String, '/' ∉ seg.data ∧ fileKey = originPrefix cfg ++ seg)
    ∧ (∀ rest : String, fileKey = originPrefix cfg ++ rest → '/' ∈ rest.data →
        presignedKey cfg fileKey ≠ fileKey) := by
  have hiff : presignedKey cfg fileKey = fileKey ↔
      ∃ seg : String, '/' ∉ seg.data ∧ fileKey = originPrefix cfg ++ seg := by
    constructor
    · intro h
      exact ⟨lastSlashSegment fileKey, lastSlashSegment_no_slash fileKey,
        h.symm.trans (presignedKey_eq cfg fileKey)⟩
    · rintro ⟨seg, hns, rfl⟩
      rw [presignedKey_eq, lastSlashSegment_of_append _ _ (originPrefix_shape cfg) hns]
  refine ⟨hiff, ?_⟩
  rintro rest hfk hsl heq
  obtain ⟨seg, hns, hfk2⟩ := hiff.mp heq
  have hseg : seg = rest := by
    have h2 : originPrefix cfg ++ seg = originPrefix cfg ++ rest := by rw [← hfk2, hfk]
    apply String.ext
    have h3 := congrArg String.data h2
    rw [String.data_append, String.data_append] at h3
    exact List.append_cancel_left h3
  exact hns (by rw [hseg]; exact hsl)

/-- C10 witness: with origin path `/assets`, signing `assets/sub/a.png`
re-derives a different key (the `sub/` directory level is lost), while
`assets/a.png` round-trips. -/
theorem presignedKey_last_segment_witness :
    presignedKey sampleConfigAssets "assets/sub/a.png" ≠ "assets/sub/a.png"
    ∧ presignedKey sampleConfigAssets "assets/a.png" = "assets/a.png" :=
  ⟨(presignedKey_last_segment sampleConfigAssets "assets/sub/a.png").2 "sub/a.png"
      (by decide) (by decide),
   (presignedKey_last_segment sampleConfigAssets "assets/a.png").1.mpr
      ⟨"a.png", by decide, by decide⟩⟩

end AwsStorage

namespace S3File

/-- C2: with a CDN configured (any base URL), a resolved cache behavior
whose path pattern is exactly `*` and a resolved storage origin whose
origin path is `/assets`, converting any logical name to a key, then to
an absolute URL, then back to a key returns the original key. -/
theorem key_url_roundTrip (baseUrl n : String) (o : AwsStorage.Origin)
    (cb : AwsStorage.CacheBehavior)
    (hO : o.OriginPath = "/assets") (hP : cb.PathPattern = "*") :
    getKeyFromUrl { baseUrl := baseUrl, s3Origin := some o, cacheBehavior := some cb }
        (getUrlFromKey { baseUrl := baseUrl, s3Origin := some o, cacheBehavior := some cb }
          (getKeyFromFile { baseUrl := baseUrl, s3Origin := some o, cacheBehavior := some cb }
            (some { originalname := n })) false)
      = getKeyFromFile { baseUrl := baseUrl, s3Origin := some o, cacheBehavior := some cb }
          (some { originalname := n }) := by
  obtain ⟨oi, od, op⟩ := o
  obtain ⟨pp, ti, vp⟩ := cb
  dsimp only at hO hP
  subst hO hP
  have hkey : getKeyFromFile
      { baseUrl := baseUrl,
        s3Origin := some { Id := oi, DomainName := od, OriginPath := "/assets" },
        cacheBehavior := some { PathPattern := "*", TargetOriginId := ti,
                                ViewerProtocolPolicy := vp } }
      (some { originalname := n }) = "assets/" ++ n := rfl
  have hurl : getUrlFromKey
      { baseUrl := baseUrl,
        s3Origin := some { Id := oi, DomainName := od, OriginPath := "/assets" },
        cacheBehavior := some { PathPattern := "*", TargetOriginId := ti,
                                ViewerProtocolPolicy := vp } }
      ("assets/" ++ n) false = baseUrl ++ ("/" ++ n) := rfl
  rw [hkey, hurl]
  have hrf : replaceFirst (baseUrl ++ ("/" ++ n)) baseUrl "" = "/" ++ n :=
    replaceFirst_append_self _ _
  calc (getKeyFromUrl
      { baseUrl := baseUrl,
        s3Origin := some { Id := oi, DomainName := od, OriginPath := "/assets" },
        cacheBehavior := some { PathPattern := "*", TargetOriginId := ti,
                                ViewerProtocolPolicy := vp } }
      (baseUrl ++ ("/" ++ n)))
      = stripLeadingSlash ("/assets" ++ replaceFirst (baseUrl ++ ("/" ++ n)) baseUrl "") := rfl
    _ = stripLeadingSlash ("/assets" ++ ("/" ++ n)) := by rw [hrf]
    _ = "assets/" ++ n := rfl

/-- C2 witness: a concrete CDN base URL and logical name `pic.png`. -/
theorem key_url_roundTrip_witness :
    getKeyFromUrl
        { baseUrl := "https://cdn.example.com",
          s3Origin := some { Id := "A", DomainName := "b.s3.amazonaws.com",
                             OriginPath := "/assets" },
          cacheBehavior := some { PathPattern := "*", TargetOriginId := some "A",
                                  ViewerProtocolPolicy := "allow-all" } }
        (getUrlFromKey
          { baseUrl := "https://cdn.example.com",
            s3Origin := some { Id := "A", DomainName := "b.s3.amazonaws.com",
                               OriginPath := "/assets" },
            cacheBehavior := some { PathPattern := "*", TargetOriginId := some "A",
                                    ViewerProtocolPolicy := "allow-all" } }
          (getKeyFromFile
            { baseUrl := "https://cdn.example.com",
              s3Origin := some { Id := "A", DomainName := "b.s3.amazonaws.com",
                                 OriginPath := "/assets" },
              cacheBehavior := some { PathPattern := "*", TargetOriginId := some "A",
                                      ViewerProtocolPolicy := "allow-all" } }
            (some { originalname := "pic.png" })) false)
      = getKeyFromFile
          { baseUrl := "https://cdn.example.com",
            s3Origin := some { Id := "A", DomainName := "b.s3.amazonaws.com",
                               OriginPath := "/assets" },
            cacheBehavior := some { PathPattern := "*", TargetOriginId := some "A",
                                    ViewerProtocolPolicy := "allow-all" } }
          (some { originalname := "pic.png" }) :=
  key_url_roundTrip "https://cdn.example.com" "pic.png"
    { Id := "A", DomainName := "b.s3.amazonaws.com", OriginPath := "/assets" }
    { PathPattern := "*", TargetOriginId := some "A", ViewerProtocolPolicy := "allow-all" }
    rfl rfl

end S3File
